import Mathlib

/-!
Shallow embedding of `src/utilities/eggLogic.py` (OnlineRogue).

The Python module is pure apart from two ambient effects: the process-wide
pseudo-random generator (`random.randint`, `random.randrange`,
`random.choice`) and the clock (`time.time`).  Both are made explicit here:
a random source is a stream `rng : Nat -> Nat` of raw draws (each Python
call consumes one draw, reduced modulo the size of the requested range, so
the set of reachable outputs coincides with the support of the Python
distribution), and the clock is a function `tf : Nat -> Int` giving the
millisecond timestamp observed by the i-th loop iteration.

The no-match path of `__getRandomSpeciesForShiny` returns Python `None`,
which the caller `constructEggs` immediately tuple-unpacks
(`speciesID, speciesEggType = ...`), raising `TypeError`.  That abnormal
termination is modelled by `constructEggs` returning `none`.
-/

/-- `EGG_SEED: int = 1073741824` (2^30). -/
def EGG_SEED : Int := 1073741824

/-- `getIDBoundarys(tier)`: `start = tier * EGG_SEED`,
`end = (tier + 1) * EGG_SEED - 1`, returning `(max(start, 255), end)`. -/
def getIDBoundarys (tier : Int) : Int × Int :=
  (max (tier * EGG_SEED) 255, (tier + 1) * EGG_SEED - 1)

/-- Python `random.randint(a, b)` (inclusive range), fed by one raw draw `n`.
Python `%` and `//` on ints agree with `Int.emod`/`Int.ediv` for positive
divisors. -/
def pyRandint (a b : Int) (n : Nat) : Int :=
  a + ((n % (b - a + 1).toNat : Nat) : Int)

/-- Python `random.randrange(lo, hi, step)` (half-open, stride `step`),
fed by one raw draw `n`. -/
def pyRandrange (lo hi step : Int) (n : Nat) : Int :=
  lo + step * ((n % ((hi - lo + step - 1) / step).toNat : Nat) : Int)

/-- `generateRandomID(start, end, manaphy)`:
manaphy mode draws `randrange(start // 204 * 204, (end // 204 + 1) * 204, 204)`;
normal mode draws `randint(start, end)`, decrements an exact multiple of 204,
and clamps to a minimum of 1. -/
def generateRandomID (start endv : Int) (manaphy : Bool) (n : Nat) : Int :=
  if manaphy then
    pyRandrange (start / 204 * 204) ((endv / 204 + 1) * 204) 204 n
  else
    let result : Int := pyRandint start endv n
    let result2 : Int := if result % 204 = 0 then result - 1 else result
    max result2 1

/-- The `isEgg` metadata of a catalog value: `{"eggType": ...}`. -/
structure EggInfo where
  eggType : Int
  deriving DecidableEq

/-- One member of the externally supplied species catalog (`eggTypesData`):
`member.name` is the integer species key (the code applies `int(...)` to it),
`member.value` carries `name` (a string) and optional `isEgg` metadata. -/
structure CatalogEntry where
  name : Int
  speciesName : String
  isEgg : Option EggInfo
  deriving DecidableEq

/-- The fixed `paradoxIDs` list from `__getRandomSpeciesForShiny`. -/
def paradoxIDs : List Int :=
  [984, 985, 986, 987, 988, 989, 990, 991, 992, 993, 994, 995,
   1005, 1006, 1009, 1010, 1020, 1021, 1022, 1023]

/-- The fixed regional-form name fragments matched when `tier == 6`. -/
def regionalFragments : List String := ["alola_", "galar_", "hisui_", "paldea_"]

/-- `a` begins with `needle` (character lists). -/
def beginsWith : List Char → List Char → Bool
  | [], _ => true
  | _ :: _, [] => false
  | a :: as, b :: bs => a == b && beginsWith as bs

/-- Python `needle in hay` substring test on character lists. -/
def hasSubChars (needle : List Char) : List Char → Bool
  | [] => needle.isEmpty
  | c :: t => beginsWith needle (c :: t) || hasSubChars needle t

/-- `substring in species['name'].lower()`. -/
def lowerContains (hay needle : String) : Bool :=
  hasSubChars needle.data (hay.map Char.toLower).data

/-- The per-member filter of `__getRandomSpeciesForShiny`: requires `isEgg`
metadata, then matches by regional name fragments (tier 6), by the paradox
identifier list (tier 7), or by `isEgg["eggType"] == tier` otherwise. -/
def eggMatches (tier : Int) (m : CatalogEntry) : Bool :=
  match m.isEgg with
  | none => false
  | some e =>
    if tier = 6 then regionalFragments.any (fun frag => lowerContains m.speciesName frag)
    else if tier = 7 then paradoxIDs.contains m.name
    else decide (e.eggType = tier)

/-- The `speciesMatch` list accumulated by `__getRandomSpeciesForShiny`. -/
def speciesMatch (tier : Int) (catalog : List CatalogEntry) : List CatalogEntry :=
  catalog.filter (eggMatches tier)

/-- Python `random.choice(x :: xs)`, fed by one raw draw `n`. -/
def pyChoice (x : CatalogEntry) (xs : List CatalogEntry) (n : Nat) : CatalogEntry :=
  (x :: xs).get ⟨n % (x :: xs).length, Nat.mod_lt n (Nat.succ_pos xs.length)⟩

/-- `__getRandomSpeciesForShiny(tier, eggTypesData)`: `None` when no member
matches, otherwise a uniformly chosen member's `(name, isEgg["eggType"])`. -/
def getRandomSpeciesForShiny (tier : Int) (catalog : List CatalogEntry) (n : Nat) :
    Option (Int × Int) :=
  match speciesMatch tier catalog with
  | [] => none
  | x :: xs =>
    match (pyChoice x xs n).isEgg with
    | none => none
    | some e => some ((pyChoice x xs n).name, e.eggType)

/-- One generated egg record (the dict built per iteration, with all keys it
carries when the iteration completes). -/
structure Egg where
  id : Int
  gachaType : Int
  hatchWaves : Int
  timestamp : Int
  isShiny : Bool
  variantTier : Int
  sourceType : Int
  species : Option Int
  tier : Int
  deriving DecidableEq

/-- One iteration of the `constructEggs` loop: draws the id (`rng pos`), the
shiny roll (`rng (pos+1)`) and, on the shiny path, the species choice
(`rng (pos+2)`).  Returns the record and the next stream position, or `none`
when the Python code raises (tuple-unpacking the matcher's `None`). -/
def buildEgg (tier gachaType hatchWaveCount : Int) (catalog : List CatalogEntry)
    (isShiny : Bool) (variantTier : Int) (startv endv : Int) (isManaphy : Bool)
    (rng : Nat → Nat) (ts : Int) (pos : Nat) : Option (Egg × Nat) :=
  let eggID : Int := generateRandomID startv endv isManaphy (rng pos)
  let shinyRoll : Int := pyRandint 1 64 (rng (pos + 1))
  if isShiny = true ∨ shinyRoll = 1 then
    match getRandomSpeciesForShiny (tier + 1) catalog (rng (pos + 2)) with
    | none => none
    | some (sid, et) =>
      some ({ id := eggID, gachaType := gachaType, hatchWaves := hatchWaveCount,
              timestamp := ts, isShiny := true,
              variantTier := if isShiny = true then variantTier - 1 else 0,
              sourceType := 1, species := some sid, tier := et - 1 }, pos + 3)
  else
    some ({ id := eggID, gachaType := gachaType, hatchWaves := hatchWaveCount,
            timestamp := ts, isShiny := false, variantTier := 0,
            sourceType := gachaType, species := none, tier := tier }, pos + 2)

/-- The `for _ in range(eggAmount)` loop of `constructEggs`: `count` eggs left,
`idx` the index of the next iteration (for the clock), `pos` the random-stream
position. -/
def constructEggsLoop (tier gachaType hatchWaveCount : Int) (catalog : List CatalogEntry)
    (isShiny : Bool) (variantTier : Int) (startv endv : Int) (isManaphy : Bool)
    (rng : Nat → Nat) (tf : Nat → Int) : Nat → Nat → Nat → Option (List Egg)
  | 0, _, _ => some []
  | count + 1, idx, pos =>
    match buildEgg tier gachaType hatchWaveCount catalog isShiny variantTier
        startv endv isManaphy rng (tf idx) pos with
    | none => none
    | some (egg, pos') =>
      match constructEggsLoop tier gachaType hatchWaveCount catalog isShiny variantTier
          startv endv isManaphy rng tf count (idx + 1) pos' with
      | none => none
      | some rest => some (egg :: rest)

/-- `constructEggs(tier, gachaType, hatchWaveCount, eggAmount, eggTypesData,
isShiny, variantTier)`: tier 4 switches to manaphy mode with boundaries taken
at tier 0.  `none` models the `TypeError` raised on the matcher's no-match. -/
def constructEggs (tier gachaType hatchWaveCount : Int) (eggAmount : Nat)
    (catalog : List CatalogEntry) (isShiny : Bool) (variantTier : Int)
    (rng : Nat → Nat) (tf : Nat → Int) : Option (List Egg) :=
  let isManaphy : Bool := decide (tier = 4)
  let b := getIDBoundarys (if isManaphy then 0 else tier)
  constructEggsLoop tier gachaType hatchWaveCount catalog isShiny variantTier
    b.1 b.2 isManaphy rng tf eggAmount 0 0

/-- A one-entry catalog whose entry has `isEgg.eggType = 1` (used as concrete
input for witnesses). -/
def catW : List CatalogEntry :=
  [{ name := 25, speciesName := "pikachu", isEgg := some { eggType := 1 } }]

/-- A one-entry catalog whose entry has `isEgg.eggType = 3`. -/
def catW8 : List CatalogEntry :=
  [{ name := 7, speciesName := "x", isEgg := some { eggType := 3 } }]

/-- The record produced by `constructEggs 4 0 1 1 [] false 0` on the identity
random stream: a non-shiny manaphy egg with id 204. -/
def eggW2 : Egg :=
  { id := 204, gachaType := 0, hatchWaves := 1, timestamp := 0, isShiny := false,
    variantTier := 0, sourceType := 0, species := none, tier := 4 }

/-- The record produced by `constructEggs 0 0 1 1 catW true 3` on the all-zero
random stream with clock 7. -/
def eggW7 : Egg :=
  { id := 255, gachaType := 0, hatchWaves := 1, timestamp := 7, isShiny := true,
    variantTier := 2, sourceType := 1, species := some 25, tier := 0 }

/-- The record produced by `constructEggs 0 0 1 1 catW true 0` on the all-zero
random stream with clock 0. -/
def eggW10 : Egg :=
  { id := 255, gachaType := 0, hatchWaves := 1, timestamp := 0, isShiny := true,
    variantTier := -1, sourceType := 1, species := some 25, tier := 0 }

/-! ### Helper lemmas -/

/-- Support of the manaphy draw: a multiple of 204 between `start` rounded
down and `end` rounded down to multiples of 204. -/
lemma generateRandomID_manaphy_bounds (st en : Int) (h : st ≤ en) (n : Nat) :
    204 ∣ generateRandomID st en true n ∧
    st / 204 * 204 ≤ generateRandomID st en true n ∧
    generateRandomID st en true n ≤ en / 204 * 204 := by
  have hred : generateRandomID st en true n =
      st / 204 * 204 + 204 *
        ((n % (((en / 204 + 1) * 204 - st / 204 * 204 + 204 - 1) / 204).toNat : Nat) : Int) :=
    rfl
  have hpos : 0 < ((((en / 204 + 1) * 204 - st / 204 * 204 + 204 - 1) / 204)).toNat := by omega
  have hlt := Nat.mod_lt n hpos
  rw [hred]
  refine ⟨⟨st / 204 +
    ((n % (((en / 204 + 1) * 204 - st / 204 * 204 + 204 - 1) / 204).toNat : Nat) : Int),
    by ring⟩, by omega, by omega⟩

/-! ### Claim C4 -/

/-- Claim C4: for every `start ≤ end`, the normal-mode draw of
`generateRandomID` (manaphy = false) never returns a value below 1 and never
returns a multiple of 204 (hence never a nonzero multiple of 204): the
uniform draw is decremented when it hits an exact multiple of 204 and the
result is clamped to a minimum of 1. -/
theorem generateRandomID_normal_spec (st en : Int) (h : st ≤ en) (n : Nat) :
    1 ≤ generateRandomID st en false n ∧ ¬ (204:Int) ∣ generateRandomID st en false n := by
  have key : ∀ r : Int, 1 ≤ max (if r % 204 = 0 then r - 1 else r) 1 ∧
      ¬ (204:Int) ∣ max (if r % 204 = 0 then r - 1 else r) 1 := by
    intro r
    refine ⟨le_max_right _ 1, ?_⟩
    rintro ⟨c, hc⟩
    rcases max_choice (if r % 204 = 0 then r - 1 else r) 1 with hm | hm <;> rw [hm] at hc
    · split at hc <;> omega
    · omega
  exact key (pyRandint st en n)

/-- Witness for C4 at `start = 255`, `end = 1073741823`, draw 0. -/
theorem generateRandomID_normal_spec_witness :
    1 ≤ generateRandomID 255 1073741823 false 0 ∧
    ¬ (204:Int) ∣ generateRandomID 255 1073741823 false 0 :=
  generateRandomID_normal_spec 255 1073741823 (by norm_num) 0

/-! ### Claim C5 -/

/-- Claim C5: for every `start ≤ end`, the manaphy-mode draw of
`generateRandomID` returns an exact multiple of 204 lying between `start`
rounded down to a multiple of 204 and `end` rounded up to a multiple of
204. -/
theorem generateRandomID_manaphy_spec (st en : Int) (h : st ≤ en) (n : Nat) :
    204 ∣ generateRandomID st en true n ∧
    st / 204 * 204 ≤ generateRandomID st en true n ∧
    generateRandomID st en true n ≤ (en + 203) / 204 * 204 := by
  obtain ⟨hd, hlo, hhi⟩ := generateRandomID_manaphy_bounds st en h n
  exact ⟨hd, hlo, by omega⟩

/-- Witness for C5 at `start = 255`, `end = 1073741823`, draw 1. -/
theorem generateRandomID_manaphy_spec_witness :
    204 ∣ generateRandomID 255 1073741823 true 1 ∧
    (255:Int) / 204 * 204 ≤ generateRandomID 255 1073741823 true 1 ∧
    generateRandomID 255 1073741823 true 1 ≤ ((1073741823:Int) + 203) / 204 * 204 :=
  generateRandomID_manaphy_spec 255 1073741823 (by norm_num) 1

/-! ### Claim C6 -/

/-- Claim C6: for every tier `t ≥ 0`, `getIDBoundarys t` is exactly
`(max (t * 1073741824) 255, (t + 1) * 1073741824 - 1)`, with
`start ≤ end` and `start ≥ 255`. -/
theorem getIDBoundarys_spec (t : Int) (h : 0 ≤ t) :
    getIDBoundarys t = (max (t * 1073741824) 255, (t + 1) * 1073741824 - 1) ∧
    (getIDBoundarys t).1 ≤ (getIDBoundarys t).2 ∧ 255 ≤ (getIDBoundarys t).1 := by
  refine ⟨rfl, ?_, ?_⟩
  · show max (t * 1073741824) 255 ≤ (t + 1) * 1073741824 - 1
    rw [max_def]
    split_ifs <;> omega
  · show (255:Int) ≤ max (t * 1073741824) 255
    exact le_max_right _ _

/-- Witness for C6 at `t = 2`. -/
theorem getIDBoundarys_spec_witness :
    getIDBoundarys 2 = (max (2 * 1073741824) 255, (2 + 1) * 1073741824 - 1) ∧
    (getIDBoundarys 2).1 ≤ (getIDBoundarys 2).2 ∧ 255 ≤ (getIDBoundarys 2).1 :=
  getIDBoundarys_spec 2 (by norm_num)

/-! ### Claim C9 -/

/-- Claim C9: for tiers `1 ≤ s < t` the intervals of `getIDBoundarys` are
disjoint (the end of tier `s` lies strictly below the start of tier `t`),
and consecutive intervals are contiguous: the end of tier `t - 1` plus one
equals the start of tier `t` (for every such `t ≥ 2`). -/
theorem getIDBoundarys_disjoint_contiguous (s t : Int) (h1 : 1 ≤ s) (h2 : s < t) :
    (getIDBoundarys s).2 < (getIDBoundarys t).1 ∧
    (getIDBoundarys (t - 1)).2 + 1 = (getIDBoundarys t).1 := by
  constructor
  · show (s + 1) * 1073741824 - 1 < max (t * 1073741824) 255
    rw [max_def]
    split_ifs <;> omega
  · show (t - 1 + 1) * 1073741824 - 1 + 1 = max (t * 1073741824) 255
    rw [max_def]
    split_ifs <;> omega

/-- Witness for C9 at `s = 1`, `t = 2`. -/
theorem getIDBoundarys_disjoint_contiguous_witness :
    (getIDBoundarys 1).2 < (getIDBoundarys 2).1 ∧
    (getIDBoundarys (2 - 1)).2 + 1 = (getIDBoundarys 2).1 :=
  getIDBoundarys_disjoint_contiguous 1 2 (by norm_num) (by norm_num)

/-! ### Claim C3 -/

/-- Claim C3: `constructEggs` is deterministic in its explicit inputs: two
calls with identical arguments and identical (seeded) random and clock
sources produce identical output, equal in every field of every record. -/
theorem constructEggs_deterministic (tier gacha waves : Int) (N : Nat)
    (catalog : List CatalogEntry) (S : Bool) (v : Int)
    (rng₁ rng₂ : Nat → Nat) (tf₁ tf₂ : Nat → Int)
    (hr : ∀ i, rng₁ i = rng₂ i) (ht : ∀ i, tf₁ i = tf₂ i) :
    constructEggs tier gacha waves N catalog S v rng₁ tf₁ =
    constructEggs tier gacha waves N catalog S v rng₂ tf₂ := by
  rw [funext hr, funext ht]

/-- Witness for C3 at concrete arguments and sources. -/
theorem constructEggs_deterministic_witness :
    constructEggs 1 2 3 2 [] false 0 (fun i => i + 5) (fun i => (i : Int)) =
    constructEggs 1 2 3 2 [] false 0 (fun i => i + 5) (fun i => (i : Int)) :=
  constructEggs_deterministic 1 2 3 2 [] false 0 _ _ _ _ (fun _ => rfl) (fun _ => rfl)

/-! ### Claim C1 -/

/-- Claim C1 (code evaluated at the failing input): with an empty catalog and
a forced-shiny batch the species matcher finds no match, and `constructEggs`
does **not** return the full list with the species field unset — the Python
code raises `TypeError` while tuple-unpacking the matcher's `None`, modelled
here by the call producing `none` instead of a list. -/
theorem constructEggs_noMatch_crash :
    constructEggs 0 0 1 1 [] true 0 (fun _ => 0) (fun _ => 0) = none := by decide

/-! ### Structural lemmas about the matcher and the loop -/

/-- `random.choice` picks an element of the list it is given. -/
lemma pyChoice_mem (x : CatalogEntry) (xs : List CatalogEntry) (n : Nat) :
    pyChoice x xs n ∈ x :: xs :=
  List.get_mem _ _ _

/-- A successful matcher result is the key and `eggType` of some catalog
member that passed the filter. -/
lemma matcher_some_mem {t : Int} {C : List CatalogEntry} {n : Nat} {sid et : Int}
    (h : getRandomSpeciesForShiny t C n = some (sid, et)) :
    ∃ m, m ∈ C ∧ eggMatches t m = true ∧ m.name = sid ∧ m.isEgg = some ⟨et⟩ := by
  unfold getRandomSpeciesForShiny at h
  split at h
  · simp at h
  next x xs heq =>
    split at h
    · simp at h
    next e he =>
      simp only [Option.some.injEq, Prod.mk.injEq] at h
      obtain ⟨h1, h2⟩ := h
      have hmem : pyChoice x xs n ∈ speciesMatch t C := by
        rw [heq]; exact pyChoice_mem x xs n
      have hf := List.mem_filter.mp hmem
      exact ⟨pyChoice x xs n, hf.1, hf.2, h1, by rw [he, ← h2]⟩

/-- Away from the sentinel tiers 6 and 7, the filter accepts exactly the
members with `isEgg` metadata of the requested `eggType`. -/
lemma eggMatches_default {t : Int} (h6 : t ≠ 6) (h7 : t ≠ 7) (m : CatalogEntry) :
    eggMatches t m = true ↔ ∃ e : EggInfo, m.isEgg = some e ∧ e.eggType = t := by
  unfold eggMatches
  rcases hm : m.isEgg with _ | e <;> simp [h6, h7]

/-- Every record of a successfully completed loop comes from `buildEgg` at
some iteration index `i` and stream position `p`. -/
lemma constructEggsLoop_mem {T G W : Int} {C : List CatalogEntry} {S : Bool} {v st en : Int}
    {M : Bool} {rng : Nat → Nat} {tf : Nat → Int} :
    ∀ (count idx pos : Nat) (eggs : List Egg),
      constructEggsLoop T G W C S v st en M rng tf count idx pos = some eggs →
      ∀ e ∈ eggs, ∃ i p p', idx ≤ i ∧ i < idx + count ∧
        buildEgg T G W C S v st en M rng (tf i) p = some (e, p') := by
  intro count
  induction count with
  | zero =>
    intro idx pos eggs h e he
    simp only [constructEggsLoop] at h
    obtain rfl : ([] : List Egg) = eggs := by simpa using h
    simp at he
  | succ k ih =>
    intro idx pos eggs h e he
    simp only [constructEggsLoop] at h
    split at h
    · simp at h
    next egg pos' hb =>
      split at h
      · simp at h
      next rest hr =>
        obtain rfl : egg :: rest = eggs := by simpa using h
        rcases List.mem_cons.mp he with rfl | hmem
        · exact ⟨idx, pos, pos', le_refl idx, by omega, hb⟩
        · obtain ⟨i, p, p', hi1, hi2, hbe⟩ := ih (idx + 1) pos' rest hr e hmem
          exact ⟨i, p, p', by omega, by omega, hbe⟩

/-- Field analysis of one successful `buildEgg` step: the id and timestamp
always come from the draws, and the record is either a shiny record (with a
successful species match) or a plain record (only possible when the batch is
not force-shiny). -/
lemma buildEgg_cases {T G W : Int} {C : List CatalogEntry} {S : Bool} {v st en : Int} {M : Bool}
    {rng : Nat → Nat} {ts : Int} {p : Nat} {e : Egg} {p' : Nat}
    (h : buildEgg T G W C S v st en M rng ts p = some (e, p')) :
    e.id = generateRandomID st en M (rng p) ∧ e.timestamp = ts ∧
    ((e.isShiny = true ∧ e.variantTier = (if S = true then v - 1 else 0) ∧ e.sourceType = 1 ∧
       ∃ sid et, getRandomSpeciesForShiny (T + 1) C (rng (p + 2)) = some (sid, et) ∧
         e.species = some sid ∧ e.tier = et - 1) ∨
     (S = false ∧ e.isShiny = false ∧ e.variantTier = 0 ∧ e.sourceType = G ∧
       e.species = none ∧ e.tier = T)) := by
  simp only [buildEgg] at h
  split at h
  next hcond =>
    split at h
    · simp at h
    next sid et hm =>
      simp only [Option.some.injEq, Prod.mk.injEq] at h
      obtain ⟨he, -⟩ := h
      subst he
      exact ⟨rfl, rfl, Or.inl ⟨rfl, rfl, rfl, sid, et, hm, rfl, rfl⟩⟩
  next hcond =>
    simp only [Option.some.injEq, Prod.mk.injEq] at h
    obtain ⟨he, -⟩ := h
    subst he
    have hS : S = false := by
      cases S
      · rfl
      · exact absurd (Or.inl rfl) hcond
    exact ⟨rfl, rfl, Or.inr ⟨hS, rfl, rfl, rfl, rfl, rfl⟩⟩

/-- Every record of a successfully completed `constructEggs` call comes from
`buildEgg` at some iteration below `eggAmount`; for a tier-4 batch the
boundaries are those of tier 0 and manaphy mode is on. -/
lemma constructEggs_mem {T G W : Int} {N : Nat} {C : List CatalogEntry} {S : Bool} {v : Int}
    {rng : Nat → Nat} {tf : Nat → Int} {eggs : List Egg}
    (h : constructEggs T G W N C S v rng tf = some eggs) :
    ∀ e ∈ eggs, ∃ i p p' st en M, i < N ∧
      buildEgg T G W C S v st en M rng (tf i) p = some (e, p') ∧
      (T = 4 → st = 255 ∧ en = 1073741823 ∧ M = true) := by
  intro e he
  obtain ⟨i, p, p', hi1, hi2, hb⟩ := constructEggsLoop_mem N 0 0 eggs h e he
  refine ⟨i, p, p', _, _, _, by omega, hb, ?_⟩
  intro hT4
  subst hT4
  exact ⟨rfl, rfl, rfl⟩

/-! ### Claim C2 -/

/-- Claim C2 counterexample: at tier 4 with the identity random stream,
`constructEggs` completes and returns a non-shiny record whose id is 204,
strictly below `getIDBoundarys 0`.fst `= 255` — the manaphy draw aligns the
lower boundary 255 down to 204, so the returned id does *not* lie within the
interval returned by the boundary calculator for tier 0. -/
theorem constructEggs_manaphy_below_lower_boundary :
    constructEggs 4 0 1 1 [] false 0 (fun i => i) (fun _ => 0) =
      some [{ id := 204, gachaType := 0, hatchWaves := 1, timestamp := 0, isShiny := false,
              variantTier := 0, sourceType := 0, species := none, tier := 4 }] ∧
    (getIDBoundarys 0).1 = 255 ∧ ¬ (255:Int) ≤ 204 := by decide

/-- Claim C2 (amended): for every completed call
`constructEggs 4 gacha waves N catalog` (defaults `isShiny = false`,
`variantTier = 0`), every returned non-shiny record's id is a multiple of 204
with `204 ≤ id ≤ 2^30 - 1`: the upper bound of `getIDBoundarys 0` holds, but
the lower bound is the 204-aligned value 204, not 255. -/
theorem constructEggs_manaphy_id_range (G W : Int) (N : Nat) (C : List CatalogEntry)
    (rng : Nat → Nat) (tf : Nat → Int) (eggs : List Egg)
    (h : constructEggs 4 G W N C false 0 rng tf = some eggs) :
    ∀ e ∈ eggs, e.isShiny = false → 204 ∣ e.id ∧ 204 ≤ e.id ∧ e.id ≤ 1073741823 := by
  intro e he _hs
  obtain ⟨i, p, p', st, en, M, hiN, hb, hT4⟩ := constructEggs_mem h e he
  obtain ⟨hst, hen, hM⟩ := hT4 rfl
  subst hst; subst hen; subst hM
  obtain ⟨hid, -, -⟩ := buildEgg_cases hb
  obtain ⟨hd, hlo, hhi⟩ :=
    generateRandomID_manaphy_bounds 255 1073741823 (by norm_num) (rng p)
  rw [hid]
  exact ⟨hd, by omega, by omega⟩

/-- Witness for the amended C2 at the counterexample input. -/
theorem constructEggs_manaphy_id_range_witness :
    204 ∣ eggW2.id ∧ 204 ≤ eggW2.id ∧ eggW2.id ≤ 1073741823 :=
  constructEggs_manaphy_id_range 0 1 1 [] (fun i => i) (fun _ => 0) [eggW2]
    (by decide) eggW2 (by decide) (by decide)

/-! ### Claim C7 -/

/-- Claim C7: in every completed force-shiny batch
(`isShiny = true`, requested variant tier `v`), every returned record has
`isShiny = true`, `variantTier = v - 1` (so `2` when the caller passes `3`),
`sourceType = 1`, and a timestamp within the window `[tLo, tHi]` covering the
clock values observed during the call. -/
theorem constructEggs_forceShiny_fields (T G W : Int) (N : Nat) (C : List CatalogEntry)
    (v : Int) (rng : Nat → Nat) (tf : Nat → Int) (tLo tHi : Int) (eggs : List Egg)
    (ht : ∀ i, i < N → tLo ≤ tf i ∧ tf i ≤ tHi)
    (h : constructEggs T G W N C true v rng tf = some eggs) :
    ∀ e ∈ eggs, e.isShiny = true ∧ e.variantTier = v - 1 ∧ e.sourceType = 1 ∧
      tLo ≤ e.timestamp ∧ e.timestamp ≤ tHi := by
  intro e he
  obtain ⟨i, p, p', st, en, M, hiN, hb, -⟩ := constructEggs_mem h e he
  obtain ⟨-, hts, hcase⟩ := buildEgg_cases hb
  rcases hcase with ⟨hsh, hvt, hsrc, -⟩ | ⟨hS, -⟩
  · refine ⟨hsh, ?_, hsrc, ?_, ?_⟩
    · rw [hvt]; simp
    · rw [hts]; exact (ht i hiN).1
    · rw [hts]; exact (ht i hiN).2
  · exact absurd hS (by simp)

/-- Witness for C7 with `v = 3` (giving `variantTier = 3 - 1`). -/
theorem constructEggs_forceShiny_fields_witness :
    eggW7.isShiny = true ∧ eggW7.variantTier = 3 - 1 ∧ eggW7.sourceType = 1 ∧
    7 ≤ eggW7.timestamp ∧ eggW7.timestamp ≤ 7 :=
  constructEggs_forceShiny_fields 0 0 1 1 catW 3 (fun _ => 0) (fun _ => 7) 7 7 [eggW7]
    (fun _ _ => ⟨le_refl 7, le_refl 7⟩) (by decide) eggW7 (by decide)

/-! ### Claim C8 -/

/-- Claim C8: for every tier `t ∉ {6, 7}` the shiny species matcher returns
`some` only for a catalog member with `isEgg` metadata whose `eggType` equals
`t` exactly, returns `none` precisely when no member qualifies, and — under
every matching policy, sentinel tiers included — members without `isEgg`
metadata never enter the matching subset. -/
theorem matchSpecies_default_spec (t : Int) (C : List CatalogEntry) (n : Nat)
    (h6 : t ≠ 6) (h7 : t ≠ 7) :
    (∀ sid et, getRandomSpeciesForShiny t C n = some (sid, et) →
       ∃ m, m ∈ C ∧ m.name = sid ∧ m.isEgg = some ⟨et⟩ ∧ et = t) ∧
    (getRandomSpeciesForShiny t C n = none ↔
       ∀ m ∈ C, ∀ e : EggInfo, m.isEgg = some e → e.eggType ≠ t) ∧
    (∀ t' : Int, ∀ m ∈ speciesMatch t' C, m.isEgg ≠ none) := by
  refine ⟨?_, ⟨?_, ?_⟩, ?_⟩
  · intro sid et hsome
    obtain ⟨m, hmC, hmatch, hname, hEgg⟩ := matcher_some_mem hsome
    obtain ⟨e, he, het⟩ := (eggMatches_default h6 h7 m).mp hmatch
    refine ⟨m, hmC, hname, hEgg, ?_⟩
    rw [hEgg] at he
    injection he with he'
    rw [← he'] at het
    exact het
  · intro hnone m hm e he het
    have hmatch : eggMatches t m = true := (eggMatches_default h6 h7 m).mpr ⟨e, he, het⟩
    have hmem : m ∈ speciesMatch t C := List.mem_filter.mpr ⟨hm, hmatch⟩
    unfold getRandomSpeciesForShiny at hnone
    split at hnone
    next hnil => rw [hnil] at hmem; simp at hmem
    next x xs heq =>
      split at hnone
      next hnoneEgg =>
        have hc : pyChoice x xs n ∈ speciesMatch t C := by
          rw [heq]; exact pyChoice_mem x xs n
        obtain ⟨e', he', -⟩ :=
          (eggMatches_default h6 h7 _).mp (List.mem_filter.mp hc).2
        rw [he'] at hnoneEgg
        simp at hnoneEgg
      next => simp at hnone
  · intro hall
    rcases hempty : speciesMatch t C with _ | ⟨x, xs⟩
    · unfold getRandomSpeciesForShiny
      rw [hempty]
    · exfalso
      have hx : x ∈ speciesMatch t C := by rw [hempty]; exact List.mem_cons_self x xs
      have hxm := List.mem_filter.mp hx
      obtain ⟨e, he, het⟩ := (eggMatches_default h6 h7 x).mp hxm.2
      exact hall x hxm.1 e he het
  · intro t' m hm hnone
    have hmatch := (List.mem_filter.mp hm).2
    unfold eggMatches at hmatch
    rw [hnone] at hmatch
    simp at hmatch

/-- Witness for C8 at `t = 3` on a one-entry catalog. -/
theorem matchSpecies_default_spec_witness :
    ∃ m, m ∈ catW8 ∧ m.name = 7 ∧ m.isEgg = some ⟨3⟩ ∧ (3:Int) = 3 :=
  (matchSpecies_default_spec 3 catW8 0 (by norm_num) (by norm_num)).1 7 3 (by decide)

/-! ### Claim C10 -/

/-- Claim C10: in every list `constructEggs` actually returns (every call that
completes normally), every shiny record carries a `species` field and has
`tier` equal to the matched catalog member's `eggType` minus 1 — a returned
shiny record without a species substitution never occurs, since the no-match
case aborts the call (`none`) instead of producing such a record. -/
theorem constructEggs_shiny_has_species (T G W : Int) (N : Nat) (C : List CatalogEntry)
    (S : Bool) (v : Int) (rng : Nat → Nat) (tf : Nat → Int) (eggs : List Egg)
    (h : constructEggs T G W N C S v rng tf = some eggs) :
    ∀ e ∈ eggs, e.isShiny = true →
      ∃ sid et m, e.species = some sid ∧ e.tier = et - 1 ∧
        m ∈ C ∧ m.name = sid ∧ m.isEgg = some ⟨et⟩ := by
  intro e he hsh
  obtain ⟨i, p, p', st, en, M, hiN, hb, -⟩ := constructEggs_mem h e he
  obtain ⟨-, -, hcase⟩ := buildEgg_cases hb
  rcases hcase with ⟨-, -, -, sid, et, hm, hsp, hti⟩ | ⟨-, hsh', -⟩
  · obtain ⟨m, hmC, -, hname, hEgg⟩ := matcher_some_mem hm
    exact ⟨sid, et, m, hsp, hti, hmC, hname, hEgg⟩
  · rw [hsh] at hsh'
    exact absurd hsh' (by simp)

/-- Witness for C10 on a one-record completed call. -/
theorem constructEggs_shiny_has_species_witness :
    ∃ sid et m, eggW10.species = some sid ∧ eggW10.tier = et - 1 ∧
      m ∈ catW ∧ m.name = sid ∧ m.isEgg = some ⟨et⟩ :=
  constructEggs_shiny_has_species 0 0 1 1 catW true 0 (fun _ => 0) (fun _ => 0) [eggW10]
    (by decide) eggW10 (by decide) (by decide)
